import Mathlib

/-!
Verification development for the option composition and workload-tuning
subsystem of an embedded storage engine (`util/options.cc`).

The C++ configuration aggregates are embedded as Lean structures.  C++
`int` fields become `Int`; unsigned fields (`uint32_t`, `uint64_t`,
`size_t`, `unsigned int`) become `Nat`, with an explicit `% 2^w`
reduction wherever the source performs a narrowing or wrapping
conversion; `double` fields, on which the source performs no arithmetic
(they are only assigned and copied), become `Rat`; `std::string` becomes
`String`; `std::vector` becomes `List`; reference-counted polymorphic
collaborators (`std::shared_ptr<T>` and raw observer pointers) become
`Option Collab`, where `none` models the null pointer and a `Collab`
value carries the self-describing name the diagnostic reporter queries.
The two C++ enums that the reporter looks up through an external name
table (`CompactionStyle`, `CompactionPri`) are embedded by their
underlying integer, since the C++ object can hold any integer of the
underlying type; the remaining enums are embedded as inductive types
restricted to the members this translation unit mentions.

In-class default member initializers for the option fields live in the
public headers, outside this translation unit; they are modelled from
the specification's field catalog as structure-field defaults below.
The theorems depend on only two facts about them: the default memtable
factory is non-null (a stated invariant) and the deprecated
`rate_limit_delay_max_milliseconds` field has some fixed default.
-/

namespace rocksdb

/-- A reference-counted polymorphic collaborator (comparator, merge
operator, compaction filter, factory, environment, cache, ...), reduced
to the self-describing name that this subsystem may query from it. -/
structure Collab where
  name : String
  deriving DecidableEq, Repr

/-- Compression type enum, restricted to the members this translation
unit mentions. -/
inductive CompressionType where
  | kNoCompression
  | kSnappyCompression
  | kDisableCompressionOption
  deriving DecidableEq, Repr

export CompressionType (kNoCompression kSnappyCompression kDisableCompressionOption)

/-- WAL recovery mode enum. -/
inductive WALRecoveryMode where
  | kTolerateCorruptedTailRecords
  | kAbsoluteConsistency
  | kPointInTimeRecovery
  | kSkipAnyCorruptedRecords
  deriving DecidableEq, Repr

/-- CompactionStyle values, by their underlying integer. -/
def kCompactionStyleLevel : Int := 0

def kCompactionStyleUniversal : Int := 1

def kCompactionStyleFIFO : Int := 2

def kCompactionStyleNone : Int := 3

/-- CompactionPri values, by their underlying integer. -/
def kByCompensatedSize : Int := 0

def kOldestLargestSeqFirst : Int := 1

def kOldestSmallestSeqFirst : Int := 2

def kMinOverlappingRatio : Int := 3

/-- ReadTier values, by their underlying integer. -/
def kReadAllTier : Int := 0

/-- C++ conversion of a signed `int` value to `unsigned int` (32-bit):
reduction modulo 2^32. -/
def uint32OfInt (n : Int) : Nat := (n % 4294967296).toNat

/-- C++ conversion of a signed `int` value to `size_t` (64-bit):
reduction modulo 2^64. -/
def sizeTOfInt (n : Int) : Nat := (n % 18446744073709551616).toNat

/-- Reduction of an unsigned product into the 64-bit range, as performed
by `uint64_t` arithmetic. -/
def uint64Wrap (n : Nat) : Nat := n % 18446744073709551616

/-- The semantics of `std::vector<T>::resize(n, v)`: truncate when `n`
is not larger than the current size, otherwise append copies of `v`. -/
def vecResize {α : Type} (l : List α) (n : Nat) (v : α) : List α :=
  if n ≤ l.length then l.take n else l ++ List.replicate (n - l.length) v

/-- Options for the block-based table format, restricted to the fields
this translation unit sets (`index_type`, `filter_policy`,
`block_cache`).  The defaults model the catalog: binary-search index, no
filter, no cache. -/
inductive BlockBasedIndexType where
  | kBinarySearch
  | kHashSearch
  deriving DecidableEq, Repr

/-- A bloom filter policy, reduced to its bits-per-key parameter. -/
structure FilterPolicy where
  bits_per_key : Nat
  deriving DecidableEq, Repr

/-- Modelled from the spec: `NewLRUCache(capacity)` yields "a block
cache sized to the input"; the cache construction itself is an external
collaborator, reduced here to the capacity it is handed. -/
structure LRUCache where
  capacity : Nat
  deriving DecidableEq, Repr

structure BlockBasedTableOptions where
  index_type : BlockBasedIndexType := BlockBasedIndexType.kBinarySearch
  filter_policy : Option FilterPolicy := none
  block_cache : Option LRUCache := none
  deriving DecidableEq, Repr

/-- A table factory: its self-describing name plus, for the block-based
factory this translation unit constructs, the table options it was
built from. -/
structure TableFactory where
  name : String
  table_options : BlockBasedTableOptions := {}
  deriving DecidableEq, Repr

/-- Modelled from the spec: `NewBloomFilterPolicy(bits)` installs "a
bloom filter of 10 bits per key" when handed 10; reduced to the
bits-per-key parameter. -/
def NewBloomFilterPolicy (bits : Nat) : FilterPolicy := ⟨bits⟩

/-- Modelled from the spec: `NewLRUCache(capacity)` installs a block
cache whose capacity is the argument. -/
def NewLRUCache (capacity : Nat) : LRUCache := ⟨capacity⟩

/-- Modelled from the spec: `NewNoopTransform()` installs "a no-op
prefix extractor". -/
def NewNoopTransform : Collab := ⟨"rocksdb.Noop"⟩

/-- Compression options parameter struct, restricted to the fields this
translation unit reads. -/
structure CompressionOptions where
  window_bits : Int := -14
  level : Int := -1
  strategy : Int := 0
  max_dict_bytes : Nat := 0
  deriving DecidableEq, Repr

/-- Universal compaction parameter struct, restricted to the fields
this translation unit reads or writes. -/
structure CompactionOptionsUniversal where
  size_ratio : Nat := 1
  min_merge_width : Nat := 2
  max_merge_width : Nat := 4294967295
  max_size_amplification_percent : Nat := 200
  compression_size_percent : Int := -1
  deriving DecidableEq, Repr

/-- FIFO compaction parameter struct, restricted to the fields this
translation unit reads. -/
structure CompactionOptionsFIFO where
  max_table_files_size : Nat := 1073741824
  deriving DecidableEq, Repr

/-- A database path entry (directory plus target size). -/
structure DbPath where
  path : String := ""
  target_size : Nat := 0
  deriving DecidableEq, Repr

/-- Whether snappy compression is available on this platform; the
probe is an external collaborator of this translation unit. -/
def Snappy_Supported : Bool := true

/-- The advanced (less frequently tuned) per-column-family options.
Field set and order follow the member-initializer list of
`AdvancedColumnFamilyOptions::AdvancedColumnFamilyOptions(const Options&)`,
plus the deprecated `rate_limit_delay_max_milliseconds` field, which
this translation unit reads in the diagnostic reporter but does not
copy in that constructor.  Defaults model the field catalog. -/
structure AdvancedColumnFamilyOptions where
  max_write_buffer_number : Int := 2
  min_write_buffer_number_to_merge : Int := 1
  max_write_buffer_number_to_maintain : Int := 0
  inplace_update_support : Bool := false
  inplace_update_num_locks : Nat := 10000
  inplace_callback : Option Collab := none
  memtable_prefix_bloom_size_ratio : Rat := 0
  memtable_huge_page_size : Nat := 0
  memtable_insert_with_hint_prefix_extractor : Option Collab := none
  bloom_locality : Nat := 0
  arena_block_size : Nat := 0
  compression_per_level : List CompressionType := []
  num_levels : Int := 7
  level0_slowdown_writes_trigger : Int := 20
  level0_stop_writes_trigger : Int := 36
  target_file_size_base : Nat := 67108864
  target_file_size_multiplier : Int := 1
  level_compaction_dynamic_level_bytes : Bool := false
  max_bytes_for_level_multiplier : Rat := 10
  max_bytes_for_level_multiplier_additional : List Int := List.replicate 7 1
  max_compaction_bytes : Nat := 0
  soft_pending_compaction_bytes_limit : Nat := 68719476736
  hard_pending_compaction_bytes_limit : Nat := 274877906944
  compaction_style : Int := kCompactionStyleLevel
  compaction_pri : Int := kByCompensatedSize
  compaction_options_universal : CompactionOptionsUniversal := {}
  compaction_options_fifo : CompactionOptionsFIFO := {}
  max_sequential_skip_in_iterations : Nat := 8
  memtable_factory : Option Collab := some ⟨"SkipListFactory"⟩
  table_properties_collector_factories : List Collab := []
  max_successive_merges : Nat := 0
  optimize_filters_for_hits : Bool := false
  paranoid_file_checks : Bool := false
  force_consistency_checks : Bool := false
  report_bg_io_stats : Bool := false
  rate_limit_delay_max_milliseconds : Nat := 1000
  deriving DecidableEq, Repr

/-- The per-column-family options: the advanced subset plus the fields
of the member-initializer list of
`ColumnFamilyOptions::ColumnFamilyOptions(const Options&)`. -/
structure ColumnFamilyOptions extends AdvancedColumnFamilyOptions where
  comparator : Collab := ⟨"leveldb.BytewiseComparator"⟩
  merge_operator : Option Collab := none
  compaction_filter : Option Collab := none
  compaction_filter_factory : Option Collab := none
  write_buffer_size : Nat := 67108864
  compression : CompressionType :=
    if Snappy_Supported then kSnappyCompression else kNoCompression
  bottommost_compression : CompressionType := kDisableCompressionOption
  compression_opts : CompressionOptions := {}
  level0_file_num_compaction_trigger : Int := 4
  prefix_extractor : Option Collab := none
  max_bytes_for_level_base : Nat := 268435456
  disable_auto_compactions : Bool := false
  table_factory : Option TableFactory := some { name := "BlockBasedTable" }
  deriving DecidableEq, Repr

/-- The database-wide options.  Field set and order follow the
member-initializer list of `DBOptions::DBOptions(const Options&)`.
Defaults model the field catalog. -/
structure DBOptions where
  create_if_missing : Bool := false
  create_missing_column_families : Bool := false
  error_if_exists : Bool := false
  paranoid_checks : Bool := true
  env : Collab := ⟨"Env.Default"⟩
  rate_limiter : Option Collab := none
  sst_file_manager : Option Collab := none
  info_log : Option Collab := none
  info_log_level : Int := 1
  max_open_files : Int := -1
  max_file_opening_threads : Int := 16
  max_total_wal_size : Nat := 0
  statistics : Option Collab := none
  use_fsync : Bool := false
  db_paths : List DbPath := []
  db_log_dir : String := ""
  wal_dir : String := ""
  delete_obsolete_files_period_micros : Nat := 21600000000
  base_background_compactions : Int := 1
  max_background_compactions : Int := 1
  max_subcompactions : Nat := 1
  max_background_flushes : Int := 1
  max_log_file_size : Nat := 0
  log_file_time_to_roll : Nat := 0
  keep_log_file_num : Nat := 1000
  recycle_log_file_num : Nat := 0
  max_manifest_file_size : Nat := 18446744073709551615
  table_cache_numshardbits : Int := 6
  WAL_ttl_seconds : Nat := 0
  WAL_size_limit_MB : Nat := 0
  manifest_preallocation_size : Nat := 4194304
  allow_mmap_reads : Bool := false
  allow_mmap_writes : Bool := false
  use_direct_reads : Bool := false
  use_direct_writes : Bool := false
  allow_fallocate : Bool := true
  is_fd_close_on_exec : Bool := true
  skip_log_error_on_recovery : Bool := false
  stats_dump_period_sec : Nat := 600
  advise_random_on_open : Bool := true
  db_write_buffer_size : Nat := 0
  write_buffer_manager : Option Collab := none
  access_hint_on_compaction_start : Int := 1
  new_table_reader_for_compaction_inputs : Bool := false
  compaction_readahead_size : Nat := 0
  random_access_max_buffer_size : Nat := 1048576
  writable_file_max_buffer_size : Nat := 1048576
  use_adaptive_mutex : Bool := false
  bytes_per_sync : Nat := 0
  wal_bytes_per_sync : Nat := 0
  listeners : List Collab := []
  enable_thread_tracking : Bool := false
  delayed_write_rate : Nat := 16777216
  enable_pipeline_write : Bool := false
  allow_concurrent_memtable_write : Bool := true
  enable_write_thread_adaptive_yield : Bool := true
  write_thread_max_yield_usec : Nat := 100
  write_thread_slow_yield_usec : Nat := 3
  skip_stats_update_on_db_open : Bool := false
  wal_recovery_mode : WALRecoveryMode := WALRecoveryMode.kPointInTimeRecovery
  row_cache : Option Collab := none
  wal_filter : Option Collab := none
  fail_if_options_file_error : Bool := false
  dump_malloc_stats : Bool := false
  avoid_flush_during_recovery : Bool := false
  avoid_flush_during_shutdown : Bool := false
  deriving DecidableEq, Repr

/-- The top-level aggregate: the union of the database-wide and the
per-column-family options (in the source, by inheritance from both). -/
structure Options extends DBOptions, ColumnFamilyOptions
  deriving DecidableEq, Repr

/-- Per-read configuration.  Field set follows the member-initializer
lists of the two `ReadOptions` constructors in this translation unit. -/
structure ReadOptions where
  verify_checksums : Bool
  fill_cache : Bool
  snapshot : Option Collab
  iterate_upper_bound : Option Collab
  read_tier : Int
  tailing : Bool
  managed : Bool
  total_order_seek : Bool
  prefix_same_as_start : Bool
  pin_data : Bool
  background_purge_on_iterator_cleanup : Bool
  readahead_size : Nat
  ignore_range_deletions : Bool
  deriving DecidableEq, Repr

/-- `AdvancedColumnFamilyOptions::AdvancedColumnFamilyOptions()`: the
fields take their catalog defaults; the body asserts that
`memtable_factory` is non-null. -/
def AdvancedColumnFamilyOptions.mkDefault : AdvancedColumnFamilyOptions := {}

/-- `AdvancedColumnFamilyOptions::AdvancedColumnFamilyOptions(const Options&)`:
copies the listed fields out of the top-level aggregate (the deprecated
`rate_limit_delay_max_milliseconds` is not in the initializer list and
keeps its in-class default), then repairs the per-level multiplier
array when it is shorter than `num_levels`.  The comparison casts
`num_levels` to `unsigned int` and the resize call converts it to
`size_t`. -/
def AdvancedColumnFamilyOptions.ofOptions (options : Options) :
    AdvancedColumnFamilyOptions :=
  let a : AdvancedColumnFamilyOptions :=
    { max_write_buffer_number := options.max_write_buffer_number
      min_write_buffer_number_to_merge := options.min_write_buffer_number_to_merge
      max_write_buffer_number_to_maintain :=
        options.max_write_buffer_number_to_maintain
      inplace_update_support := options.inplace_update_support
      inplace_update_num_locks := options.inplace_update_num_locks
      inplace_callback := options.inplace_callback
      memtable_prefix_bloom_size_ratio := options.memtable_prefix_bloom_size_ratio
      memtable_huge_page_size := options.memtable_huge_page_size
      memtable_insert_with_hint_prefix_extractor :=
        options.memtable_insert_with_hint_prefix_extractor
      bloom_locality := options.bloom_locality
      arena_block_size := options.arena_block_size
      compression_per_level := options.compression_per_level
      num_levels := options.num_levels
      level0_slowdown_writes_trigger := options.level0_slowdown_writes_trigger
      level0_stop_writes_trigger := options.level0_stop_writes_trigger
      target_file_size_base := options.target_file_size_base
      target_file_size_multiplier := options.target_file_size_multiplier
      level_compaction_dynamic_level_bytes :=
        options.level_compaction_dynamic_level_bytes
      max_bytes_for_level_multiplier := options.max_bytes_for_level_multiplier
      max_bytes_for_level_multiplier_additional :=
        options.max_bytes_for_level_multiplier_additional
      max_compaction_bytes := options.max_compaction_bytes
      soft_pending_compaction_bytes_limit :=
        options.soft_pending_compaction_bytes_limit
      hard_pending_compaction_bytes_limit :=
        options.hard_pending_compaction_bytes_limit
      compaction_style := options.compaction_style
      compaction_pri := options.compaction_pri
      compaction_options_universal := options.compaction_options_universal
      compaction_options_fifo := options.compaction_options_fifo
      max_sequential_skip_in_iterations :=
        options.max_sequential_skip_in_iterations
      memtable_factory := options.memtable_factory
      table_properties_collector_factories :=
        options.table_properties_collector_factories
      max_successive_merges := options.max_successive_merges
      optimize_filters_for_hits := options.optimize_filters_for_hits
      paranoid_file_checks := options.paranoid_file_checks
      force_consistency_checks := options.force_consistency_checks
      report_bg_io_stats := options.report_bg_io_stats }
  if a.max_bytes_for_level_multiplier_additional.length <
      uint32OfInt a.num_levels then
    { a with max_bytes_for_level_multiplier_additional :=
        (vecResize a.max_bytes_for_level_multiplier_additional
          (sizeTOfInt a.num_levels) 1) }
  else a

/-- `ColumnFamilyOptions::ColumnFamilyOptions()`: catalog defaults, with
`compression` chosen by the snappy availability probe and
`table_factory` a fresh block-based table factory. -/
def ColumnFamilyOptions.mkDefault : ColumnFamilyOptions :=
  { compression := if Snappy_Supported then kSnappyCompression else kNoCompression
    table_factory := some { name := "BlockBasedTable" } }

/-- `ColumnFamilyOptions::ColumnFamilyOptions(const Options&)`: the
advanced subset is derived first, then the listed own fields are copied
from the top-level aggregate. -/
def ColumnFamilyOptions.ofOptions (options : Options) : ColumnFamilyOptions :=
  { toAdvancedColumnFamilyOptions := AdvancedColumnFamilyOptions.ofOptions options
    comparator := options.comparator
    merge_operator := options.merge_operator
    compaction_filter := options.compaction_filter
    compaction_filter_factory := options.compaction_filter_factory
    write_buffer_size := options.write_buffer_size
    compression := options.compression
    bottommost_compression := options.bottommost_compression
    compression_opts := options.compression_opts
    level0_file_num_compaction_trigger :=
      options.level0_file_num_compaction_trigger
    prefix_extractor := options.prefix_extractor
    max_bytes_for_level_base := options.max_bytes_for_level_base
    disable_auto_compactions := options.disable_auto_compactions
    table_factory := options.table_factory }

/-- `DBOptions::DBOptions()`: catalog defaults. -/
def DBOptions.mkDefault : DBOptions := {}

/-- `DBOptions::DBOptions(const Options&)`: copies every listed field
out of the top-level aggregate. -/
def DBOptions.ofOptions (options : Options) : DBOptions :=
  { create_if_missing := options.create_if_missing
    create_missing_column_families := options.create_missing_column_families
    error_if_exists := options.error_if_exists
    paranoid_checks := options.paranoid_checks
    env := options.env
    rate_limiter := options.rate_limiter
    sst_file_manager := options.sst_file_manager
    info_log := options.info_log
    info_log_level := options.info_log_level
    max_open_files := options.max_open_files
    max_file_opening_threads := options.max_file_opening_threads
    max_total_wal_size := options.max_total_wal_size
    statistics := options.statistics
    use_fsync := options.use_fsync
    db_paths := options.db_paths
    db_log_dir := options.db_log_dir
    wal_dir := options.wal_dir
    delete_obsolete_files_period_micros :=
      options.delete_obsolete_files_period_micros
    base_background_compactions := options.base_background_compactions
    max_background_compactions := options.max_background_compactions
    max_subcompactions := options.max_subcompactions
    max_background_flushes := options.max_background_flushes
    max_log_file_size := options.max_log_file_size
    log_file_time_to_roll := options.log_file_time_to_roll
    keep_log_file_num := options.keep_log_file_num
    recycle_log_file_num := options.recycle_log_file_num
    max_manifest_file_size := options.max_manifest_file_size
    table_cache_numshardbits := options.table_cache_numshardbits
    WAL_ttl_seconds := options.WAL_ttl_seconds
    WAL_size_limit_MB := options.WAL_size_limit_MB
    manifest_preallocation_size := options.manifest_preallocation_size
    allow_mmap_reads := options.allow_mmap_reads
    allow_mmap_writes := options.allow_mmap_writes
    use_direct_reads := options.use_direct_reads
    use_direct_writes := options.use_direct_writes
    allow_fallocate := options.allow_fallocate
    is_fd_close_on_exec := options.is_fd_close_on_exec
    skip_log_error_on_recovery := options.skip_log_error_on_recovery
    stats_dump_period_sec := options.stats_dump_period_sec
    advise_random_on_open := options.advise_random_on_open
    db_write_buffer_size := options.db_write_buffer_size
    write_buffer_manager := options.write_buffer_manager
    access_hint_on_compaction_start := options.access_hint_on_compaction_start
    new_table_reader_for_compaction_inputs :=
      options.new_table_reader_for_compaction_inputs
    compaction_readahead_size := options.compaction_readahead_size
    random_access_max_buffer_size := options.random_access_max_buffer_size
    writable_file_max_buffer_size := options.writable_file_max_buffer_size
    use_adaptive_mutex := options.use_adaptive_mutex
    bytes_per_sync := options.bytes_per_sync
    wal_bytes_per_sync := options.wal_bytes_per_sync
    listeners := options.listeners
    enable_thread_tracking := options.enable_thread_tracking
    delayed_write_rate := options.delayed_write_rate
    enable_pipeline_write := options.enable_pipeline_write
    allow_concurrent_memtable_write := options.allow_concurrent_memtable_write
    enable_write_thread_adaptive_yield :=
      options.enable_write_thread_adaptive_yield
    write_thread_max_yield_usec := options.write_thread_max_yield_usec
    write_thread_slow_yield_usec := options.write_thread_slow_yield_usec
    skip_stats_update_on_db_open := options.skip_stats_update_on_db_open
    wal_recovery_mode := options.wal_recovery_mode
    row_cache := options.row_cache
    wal_filter := options.wal_filter
    fail_if_options_file_error := options.fail_if_options_file_error
    dump_malloc_stats := options.dump_malloc_stats
    avoid_flush_during_recovery := options.avoid_flush_during_recovery
    avoid_flush_during_shutdown := options.avoid_flush_during_shutdown }

/-- Modelled from the spec: `Options` is "derivable from its two parts
individually via their copy-constructors"; the assembling constructor
`Options(const DBOptions&, const ColumnFamilyOptions&)` lives in the
public header, outside this translation unit, and copies each base
subobject. -/
def Options.assemble (db_options : DBOptions)
    (column_family_options : ColumnFamilyOptions) : Options :=
  Options.mk db_options column_family_options

/-- Splitting a top-level aggregate into its two sub-domain objects and
reassembling them. -/
def Options.roundTrip (o : Options) : Options :=
  Options.assemble (DBOptions.ofOptions o) (ColumnFamilyOptions.ofOptions o)

/-- `Options::Options()`: catalog defaults for both parts with the
column-family defaults of this translation unit. -/
def Options.mkDefault : Options :=
  Options.mk DBOptions.mkDefault ColumnFamilyOptions.mkDefault

/-- `Options::PrepareForBulkLoad()`: funnels all ingested data into
level 0 so that a single manual compaction promotes everything to
level 1.  `1 << 30` for the `int` triggers, `uint64_t(1) << 60` for the
compaction byte cap, `256 * 1024 * 1024` for the target file size. -/
def Options.PrepareForBulkLoad (o : Options) : Options :=
  { o with
    level0_file_num_compaction_trigger := 1073741824
    level0_slowdown_writes_trigger := 1073741824
    level0_stop_writes_trigger := 1073741824
    soft_pending_compaction_bytes_limit := 0
    hard_pending_compaction_bytes_limit := 0
    disable_auto_compactions := true
    max_compaction_bytes := 1152921504606846976
    num_levels := 2
    max_write_buffer_number := 6
    min_write_buffer_number_to_merge := 1
    max_background_flushes := 4
    max_background_compactions := 2
    base_background_compactions := 2
    target_file_size_base := 268435456 }

/-- `DBOptions::OldDefaults(major, minor)`: restores the pre-4.7
file-thread and table-cache-shard defaults and the pre-5.2 delayed
write rate when the version pair is strictly lexicographically below
the respective cutoff, then unconditionally sets the remaining legacy
values. -/
def DBOptions.OldDefaults (d : DBOptions)
    (rocksdb_major_version rocksdb_minor_version : Int) : DBOptions :=
  let d :=
    if rocksdb_major_version < 4 ∨
        (rocksdb_major_version = 4 ∧ rocksdb_minor_version < 7) then
      { d with max_file_opening_threads := 1, table_cache_numshardbits := 4 }
    else d
  let d :=
    if rocksdb_major_version < 5 ∨
        (rocksdb_major_version = 5 ∧ rocksdb_minor_version < 2) then
      { d with delayed_write_rate := 2097152 }
    else d
  { d with
    max_open_files := 5000
    base_background_compactions := -1
    wal_recovery_mode := WALRecoveryMode.kTolerateCorruptedTailRecords }

/-- `ColumnFamilyOptions::OldDefaults(major, minor)`: restores the
pre-4.7 buffer/file-size/pending-limit defaults and the version-indexed
level-0 stop trigger, and always resets the compaction priority. -/
def ColumnFamilyOptions.OldDefaults (c : ColumnFamilyOptions)
    (rocksdb_major_version rocksdb_minor_version : Int) : ColumnFamilyOptions :=
  let c :=
    if rocksdb_major_version < 4 ∨
        (rocksdb_major_version = 4 ∧ rocksdb_minor_version < 7) then
      { c with
        write_buffer_size := 4194304
        target_file_size_base := 2097152
        max_bytes_for_level_base := 10485760
        soft_pending_compaction_bytes_limit := 0
        hard_pending_compaction_bytes_limit := 0 }
    else c
  let c :=
    if rocksdb_major_version < 5 then
      { c with level0_stop_writes_trigger := 24 }
    else if rocksdb_major_version = 5 ∧ rocksdb_minor_version < 2 then
      { c with level0_stop_writes_trigger := 30 }
    else c
  { c with compaction_pri := kByCompensatedSize }

/-- `Options::OldDefaults(major, minor)`: applies both sub-domain
legacy-default transformers to the aggregate. -/
def Options.OldDefaults (o : Options)
    (rocksdb_major_version rocksdb_minor_version : Int) : Options :=
  Options.mk
    (o.toDBOptions.OldDefaults rocksdb_major_version rocksdb_minor_version)
    (o.toColumnFamilyOptions.OldDefaults rocksdb_major_version
      rocksdb_minor_version)

/-- `DBOptions::OptimizeForSmallDb()`. -/
def DBOptions.OptimizeForSmallDb (d : DBOptions) : DBOptions :=
  { d with max_file_opening_threads := 1, max_open_files := 5000 }

/-- `ColumnFamilyOptions::OptimizeForSmallDb()`. -/
def ColumnFamilyOptions.OptimizeForSmallDb (c : ColumnFamilyOptions) :
    ColumnFamilyOptions :=
  { c with
    write_buffer_size := 2097152
    target_file_size_base := 2097152
    max_bytes_for_level_base := 10485760
    soft_pending_compaction_bytes_limit := 268435456
    hard_pending_compaction_bytes_limit := 1073741824 }

/-- `Options::OptimizeForSmallDb()`: both sub-domain transformers. -/
def Options.OptimizeForSmallDb (o : Options) : Options :=
  Options.mk o.toDBOptions.OptimizeForSmallDb
    o.toColumnFamilyOptions.OptimizeForSmallDb

/-- `ColumnFamilyOptions::OptimizeForPointLookup(block_cache_size_mb)`:
installs a no-op prefix extractor, a block-based table factory with a
hash-search index, a 10-bits-per-key bloom filter and an LRU block
cache sized to `block_cache_size_mb * 1024 * 1024` (computed in
`uint64_t` arithmetic, hence reduced modulo 2^64), and sets the
memtable prefix-bloom ratio to 0.02. -/
def ColumnFamilyOptions.OptimizeForPointLookup (c : ColumnFamilyOptions)
    (block_cache_size_mb : Nat) : ColumnFamilyOptions :=
  { c with
    prefix_extractor := some NewNoopTransform
    table_factory := some
      { name := "BlockBasedTable"
        table_options :=
          { index_type := BlockBasedIndexType.kHashSearch
            filter_policy := some (NewBloomFilterPolicy 10)
            block_cache := some
              (NewLRUCache (uint64Wrap (block_cache_size_mb * 1024 * 1024))) } }
    memtable_prefix_bloom_size_ratio := 0.02 }

/-- The per-level compression loop of
`ColumnFamilyOptions::OptimizeLevelStyleCompaction`: for each index
`i` below the loop bound, assign no compression when `i < 2` and snappy
compression otherwise. -/
def compressionFill (l : List CompressionType) (n : Nat) :
    List CompressionType :=
  (List.range n).foldl
    (fun acc i =>
      acc.set i (if i < 2 then kNoCompression else kSnappyCompression)) l

/-- `ColumnFamilyOptions::OptimizeLevelStyleCompaction(budget)`: derives
the buffer/trigger/file-size fields from the budget, selects level-style
compaction, resizes the per-level compression array to `num_levels`
(the `resize` argument is converted to `size_t`; value-initialized
padding is the zero enum member, i.e. no compression) and then fills
it: levels 0 and 1 uncompressed, higher levels snappy-compressed.  The
loop counter is a signed `int`, so the loop runs for the nonnegative
part of `num_levels`. -/
def ColumnFamilyOptions.OptimizeLevelStyleCompaction (c : ColumnFamilyOptions)
    (memtable_memory_budget : Nat) : ColumnFamilyOptions :=
  { c with
    write_buffer_size := memtable_memory_budget / 4
    min_write_buffer_number_to_merge := 2
    max_write_buffer_number := 6
    level0_file_num_compaction_trigger := 2
    target_file_size_base := memtable_memory_budget / 8
    max_bytes_for_level_base := memtable_memory_budget
    compaction_style := kCompactionStyleLevel
    compression_per_level :=
      (compressionFill
        (vecResize c.compression_per_level (sizeTOfInt c.num_levels)
          kNoCompression)
        c.num_levels.toNat) }

/-- `ColumnFamilyOptions::OptimizeUniversalStyleCompaction(budget)`. -/
def ColumnFamilyOptions.OptimizeUniversalStyleCompaction
    (c : ColumnFamilyOptions) (memtable_memory_budget : Nat) :
    ColumnFamilyOptions :=
  { c with
    write_buffer_size := memtable_memory_budget / 4
    min_write_buffer_number_to_merge := 2
    max_write_buffer_number := 6
    compaction_style := kCompactionStyleUniversal
    compaction_options_universal :=
      { c.compaction_options_universal with compression_size_percent := 80 } }

/-- `ReadOptions::ReadOptions()`: the full-default construction
profile. -/
def ReadOptions.mkDefault : ReadOptions :=
  { verify_checksums := true
    fill_cache := true
    snapshot := none
    iterate_upper_bound := none
    read_tier := kReadAllTier
    tailing := false
    managed := false
    total_order_seek := false
    prefix_same_as_start := false
    pin_data := false
    background_purge_on_iterator_cleanup := false
    readahead_size := 0
    ignore_range_deletions := false }

/-- Rendering of an optional collaborator that the reporter guards
with a null test: the literal `"None"` stands in for the null
pointer. -/
def nameOrNone : Option Collab → String
  | some c => c.name
  | none => "None"

/-- Rendering of an optional collaborator that the reporter compares
against `nullptr` and renders as the literal `"nullptr"`. -/
def nameOrNullptr : Option Collab → String
  | some c => c.name
  | none => "nullptr"

/-- Rendering of a collaborator the reporter dereferences without a
null test; dereferencing a null pointer there is undefined behaviour in
the source, so the `none` case is vacuous for well-formed inputs. -/
def mustName : Option Collab → String
  | some c => c.name
  | none => ""

/-- The table-factory name, dereferenced without a null test. -/
def mustTableFactoryName : Option TableFactory → String
  | some t => t.name
  | none => ""

/-- Modelled from the spec: a human-readable name for every compression
enum value (`CompressionTypeToString` lives in the options helper,
outside this translation unit). -/
def CompressionTypeToString : CompressionType → String
  | kNoCompression => "NoCompression"
  | kSnappyCompression => "Snappy"
  | kDisableCompressionOption => "DisableOption"

/-- Modelled from the spec: the global read-only name table for
compaction styles (defined in the options helper, outside this
translation unit); it has entries exactly for the four declared enum
members. -/
def compaction_style_to_string (style : Int) : Option String :=
  if style = kCompactionStyleLevel then some "kCompactionStyleLevel"
  else if style = kCompactionStyleUniversal then some "kCompactionStyleUniversal"
  else if style = kCompactionStyleFIFO then some "kCompactionStyleFIFO"
  else if style = kCompactionStyleNone then some "kCompactionStyleNone"
  else none

/-- Modelled from the spec: the global read-only name table for
compaction priorities (defined in the options helper, outside this
translation unit); it has entries exactly for the four declared enum
members. -/
def compaction_pri_to_string (pri : Int) : Option String :=
  if pri = kByCompensatedSize then some "kByCompensatedSize"
  else if pri = kOldestLargestSeqFirst then some "kOldestLargestSeqFirst"
  else if pri = kOldestSmallestSeqFirst then some "kOldestSmallestSeqFirst"
  else if pri = kMinOverlappingRatio then some "kMinOverlappingRatio"
  else none

/-- Modelled from the spec: the table factory exposes a "printable
options" capability, used only for diagnostics, whose text reflects the
index type and filter policy it was configured with. -/
def TableFactory.GetPrintableTableOptions (t : TableFactory) : String :=
  "  index_type: " ++
    (match t.table_options.index_type with
     | BlockBasedIndexType.kBinarySearch => "0"
     | BlockBasedIndexType.kHashSearch => "1") ++
  "  filter_policy: " ++
    (match t.table_options.filter_policy with
     | some p => "rocksdb.BuiltinBloomFilter (" ++ toString p.bits_per_key ++
         " bits per key)"
     | none => "nullptr")

/-- The printable table options of an owned table factory. -/
def mustPrintableTableOptions : Option TableFactory → String
  | some t => t.GetPrintableTableOptions
  | none => ""

/-- Rendering of a boolean through the `%d` conversion: the `bool` is
promoted to the integer 0 or 1. -/
def cppBool (b : Bool) : String := if b then "1" else "0"

/-- `ColumnFamilyOptions::Dump(Logger*)`, as the ordered list of the
formatted lines it hands to the log sink.  The two `assert(false)`
statements guarding the name-table misses compile away in release
builds, after which the reporter substitutes an `unknown_`-labelled
string for the missing entry. -/
def ColumnFamilyOptions.Dump (c : ColumnFamilyOptions) : List String :=
  ["              Options.comparator: " ++ c.comparator.name,
   "          Options.merge_operator: " ++ nameOrNone c.merge_operator,
   "       Options.compaction_filter: " ++ nameOrNone c.compaction_filter,
   "       Options.compaction_filter_factory: " ++
     nameOrNone c.compaction_filter_factory,
   "        Options.memtable_factory: " ++ mustName c.memtable_factory,
   "           Options.table_factory: " ++ mustTableFactoryName c.table_factory,
   "           table_factory options: " ++
     mustPrintableTableOptions c.table_factory,
   "       Options.write_buffer_size: " ++ toString c.write_buffer_size,
   " Options.max_write_buffer_number: " ++ toString c.max_write_buffer_number]
  ++ (if !c.compression_per_level.isEmpty then
        c.compression_per_level.enum.map (fun p =>
          "       Options.compression[" ++ toString p.1 ++ "]: " ++
            CompressionTypeToString p.2)
      else
        ["         Options.compression: " ++ CompressionTypeToString c.compression])
  ++ ["                 Options.bottommost_compression: " ++
        (if c.bottommost_compression = kDisableCompressionOption then "Disabled"
         else CompressionTypeToString c.bottommost_compression),
      "      Options.prefix_extractor: " ++ nameOrNullptr c.prefix_extractor,
      "  Options.memtable_insert_with_hint_prefix_extractor: " ++
        nameOrNullptr c.memtable_insert_with_hint_prefix_extractor,
      "            Options.num_levels: " ++ toString c.num_levels,
      "       Options.min_write_buffer_number_to_merge: " ++
        toString c.min_write_buffer_number_to_merge,
      "    Options.max_write_buffer_number_to_maintain: " ++
        toString c.max_write_buffer_number_to_maintain,
      "           Options.compression_opts.window_bits: " ++
        toString c.compression_opts.window_bits,
      "                 Options.compression_opts.level: " ++
        toString c.compression_opts.level,
      "              Options.compression_opts.strategy: " ++
        toString c.compression_opts.strategy,
      "        Options.compression_opts.max_dict_bytes: " ++
        toString c.compression_opts.max_dict_bytes,
      "     Options.level0_file_num_compaction_trigger: " ++
        toString c.level0_file_num_compaction_trigger,
      "         Options.level0_slowdown_writes_trigger: " ++
        toString c.level0_slowdown_writes_trigger,
      "             Options.level0_stop_writes_trigger: " ++
        toString c.level0_stop_writes_trigger,
      "                  Options.target_file_size_base: " ++
        toString c.target_file_size_base,
      "            Options.target_file_size_multiplier: " ++
        toString c.target_file_size_multiplier,
      "               Options.max_bytes_for_level_base: " ++
        toString c.max_bytes_for_level_base,
      "Options.level_compaction_dynamic_level_bytes: " ++
        cppBool c.level_compaction_dynamic_level_bytes,
      "         Options.max_bytes_for_level_multiplier: " ++
        toString c.max_bytes_for_level_multiplier]
  ++ c.max_bytes_for_level_multiplier_additional.enum.map (fun p =>
      "Options.max_bytes_for_level_multiplier_addtl[" ++ toString p.1 ++
        "]: " ++ toString p.2)
  ++ ["      Options.max_sequential_skip_in_iterations: " ++
        toString c.max_sequential_skip_in_iterations,
      "                   Options.max_compaction_bytes: " ++
        toString c.max_compaction_bytes,
      "                       Options.arena_block_size: " ++
        toString c.arena_block_size,
      "  Options.soft_pending_compaction_bytes_limit: " ++
        toString c.soft_pending_compaction_bytes_limit,
      "  Options.hard_pending_compaction_bytes_limit: " ++
        toString c.hard_pending_compaction_bytes_limit,
      "      Options.rate_limit_delay_max_milliseconds: " ++
        toString c.rate_limit_delay_max_milliseconds,
      "               Options.disable_auto_compactions: " ++
        cppBool c.disable_auto_compactions,
      "                        Options.compaction_style: " ++
        (match compaction_style_to_string c.compaction_style with
         | some s => s
         | none => "unknown_" ++ toString c.compaction_style),
      "                          Options.compaction_pri: " ++
        (match compaction_pri_to_string c.compaction_pri with
         | some s => s
         | none => "unknown_" ++ toString c.compaction_pri),
      " Options.compaction_options_universal.size_ratio: " ++
        toString c.compaction_options_universal.size_ratio,
      "Options.compaction_options_universal.min_merge_width: " ++
        toString c.compaction_options_universal.min_merge_width,
      "Options.compaction_options_universal.max_merge_width: " ++
        toString c.compaction_options_universal.max_merge_width,
      "Options.compaction_options_universal." ++
        "max_size_amplification_percent: " ++
        toString c.compaction_options_universal.max_size_amplification_percent,
      "Options.compaction_options_universal.compression_size_percent: " ++
        toString c.compaction_options_universal.compression_size_percent,
      "Options.compaction_options_fifo.max_table_files_size: " ++
        toString c.compaction_options_fifo.max_table_files_size,
      "                  Options.table_properties_collectors: " ++
        c.table_properties_collector_factories.foldl
          (fun s f => s ++ f.name ++ "; ") "",
      "                  Options.inplace_update_support: " ++
        cppBool c.inplace_update_support,
      "                Options.inplace_update_num_locks: " ++
        toString c.inplace_update_num_locks,
      "              Options.memtable_prefix_bloom_size_ratio: " ++
        toString c.memtable_prefix_bloom_size_ratio,
      "  Options.memtable_huge_page_size: " ++
        toString c.memtable_huge_page_size,
      "                          Options.bloom_locality: " ++
        toString c.bloom_locality,
      "                   Options.max_successive_merges: " ++
        toString c.max_successive_merges,
      "               Options.optimize_filters_for_hits: " ++
        cppBool c.optimize_filters_for_hits,
      "               Options.paranoid_file_checks: " ++
        cppBool c.paranoid_file_checks,
      "               Options.force_consistency_checks: " ++
        cppBool c.force_consistency_checks,
      "               Options.report_bg_io_stats: " ++
        cppBool c.report_bg_io_stats]

/-- `ReadOptions::ReadOptions(cksum, cache)`: the reduced construction
profile fixing only checksum verification and cache fill. -/
def ReadOptions.mkChecksumCache (cksum cache : Bool) : ReadOptions :=
  { verify_checksums := cksum
    fill_cache := cache
    snapshot := none
    iterate_upper_bound := none
    read_tier := kReadAllTier
    tailing := false
    managed := false
    total_order_seek := false
    prefix_same_as_start := false
    pin_data := false
    background_purge_on_iterator_cleanup := false
    readahead_size := 0
    ignore_range_deletions := false }

/-- Extracts the index type of the configured table factory. -/
def tableFactoryIndexType (c : ColumnFamilyOptions) : Option BlockBasedIndexType :=
  c.table_factory.map (fun t => t.table_options.index_type)

/-- Extracts the bits-per-key parameter of the table factory's bloom
filter policy. -/
def tableFactoryBloomBits (c : ColumnFamilyOptions) : Option Nat :=
  c.table_factory.bind (fun t => t.table_options.filter_policy.map
    (fun p => p.bits_per_key))

/-- Extracts the capacity of the table factory's block cache. -/
def tableFactoryBlockCacheCapacity (c : ColumnFamilyOptions) : Option Nat :=
  c.table_factory.bind (fun t => t.table_options.block_cache.map
    (fun k => k.capacity))

/-- Strict lexicographic order on (major, minor) version pairs, the
order the legacy-defaults cutoff tests implement: `(a, b)` is below the
cutoff `(c, d)` when `a < c`, or `a = c` and `b < d`. -/
def lexLt (a b c d : Int) : Prop :=
  a < c ∨ (a = c ∧ b < d)

instance (a b c d : Int) : Decidable (lexLt a b c d) := by
  unfold lexLt; infer_instance

theorem uint32OfInt_eq_toNat {n : Int} (h0 : 0 ≤ n) (h : n < 4294967296) :
    uint32OfInt n = n.toNat := by
  unfold uint32OfInt
  rw [Int.emod_eq_of_lt h0 h]

theorem sizeTOfInt_eq_toNat {n : Int} (h0 : 0 ≤ n)
    (h : n < 18446744073709551616) : sizeTOfInt n = n.toNat := by
  unfold sizeTOfInt
  rw [Int.emod_eq_of_lt h0 h]

theorem vecResize_length {α : Type} (l : List α) (n : Nat) (v : α) :
    (vecResize l n v).length = n := by
  unfold vecResize
  split <;> simp <;> omega

theorem vecResize_getElem?_lt {α : Type} (l : List α) (n : Nat) (v : α)
    (i : Nat) (hi : i < l.length) (hin : i < n) :
    (vecResize l n v)[i]? = l[i]? := by
  unfold vecResize
  split
  · rw [List.getElem?_take]
    simp [hin]
  · rw [List.getElem?_append_left hi]

theorem vecResize_getElem?_pad {α : Type} (l : List α) (n : Nat) (v : α)
    (i : Nat) (hl : l.length ≤ i) (hin : i < n) :
    (vecResize l n v)[i]? = some v := by
  unfold vecResize
  split
  · omega
  · rw [List.getElem?_append_right hl, List.getElem?_replicate]
    have h : i - l.length < n - l.length := by omega
    simp [h]

theorem compressionFill_succ (l : List CompressionType) (n : Nat) :
    compressionFill l (n + 1) =
      (compressionFill l n).set n
        (if n < 2 then kNoCompression else kSnappyCompression) := by
  simp [compressionFill, List.range_succ]

theorem compressionFill_length (l : List CompressionType) (n : Nat) :
    (compressionFill l n).length = l.length := by
  induction n with
  | zero => rfl
  | succ n ih => rw [compressionFill_succ]; simp [ih]

theorem compressionFill_getElem? (l : List CompressionType) (n i : Nat)
    (hin : i < n) (hil : i < l.length) :
    (compressionFill l n)[i]? =
      some (if i < 2 then kNoCompression else kSnappyCompression) := by
  induction n with
  | zero => omega
  | succ n ih =>
    rw [compressionFill_succ]
    rcases Nat.lt_or_ge i n with h | h
    · rw [List.getElem?_set_ne (by omega : n ≠ i)]
      exact ih h
    · have hi : i = n := by omega
      subst hi
      rw [List.getElem?_set_self (by rw [compressionFill_length]; exact hil)]

/-- C9: the reduced constructor `ReadOptions(cksum, cache)` sets
`verify_checksums` and `fill_cache` to its two arguments and leaves
every other field equal to the value produced by the full-default
constructor `ReadOptions()`. -/
theorem readOptions_reduced_ctor_frame (cksum cache : Bool) :
    ReadOptions.mkChecksumCache cksum cache =
      { ReadOptions.mkDefault with
        verify_checksums := cksum, fill_cache := cache } := rfl

/-- C6: `Options::PrepareForBulkLoad` is idempotent: applying it twice
produces exactly the same field values as applying it once. -/
theorem prepareForBulkLoad_idempotent (o : Options) :
    o.PrepareForBulkLoad.PrepareForBulkLoad = o.PrepareForBulkLoad := rfl

/-- C5: the legacy-defaults transformers apply each historical branch
exactly when the version pair is strictly lexicographically below the
branch's cutoff; in particular version (4,6) receives the pre-4.7
defaults (`max_file_opening_threads = 1`, `table_cache_numshardbits =
4`, `write_buffer_size` 4 MiB) while (4,7) does not, and the (5,2)
cutoff governs `delayed_write_rate` the same way. -/
theorem oldDefaults_strict_lex_cutoffs (d : DBOptions)
    (c : ColumnFamilyOptions) (major minor : Int) :
    ((d.OldDefaults major minor).max_file_opening_threads =
      if lexLt major minor 4 7 then 1 else d.max_file_opening_threads) ∧
    ((d.OldDefaults major minor).table_cache_numshardbits =
      if lexLt major minor 4 7 then 4 else d.table_cache_numshardbits) ∧
    ((d.OldDefaults major minor).delayed_write_rate =
      if lexLt major minor 5 2 then 2097152 else d.delayed_write_rate) ∧
    ((c.OldDefaults major minor).write_buffer_size =
      if lexLt major minor 4 7 then 4194304 else c.write_buffer_size) ∧
    (d.OldDefaults 4 6).max_file_opening_threads = 1 ∧
    (d.OldDefaults 4 6).table_cache_numshardbits = 4 ∧
    (d.OldDefaults 4 7).max_file_opening_threads =
      d.max_file_opening_threads ∧
    (d.OldDefaults 4 7).table_cache_numshardbits =
      d.table_cache_numshardbits ∧
    (c.OldDefaults 4 6).write_buffer_size = 4194304 ∧
    (c.OldDefaults 4 7).write_buffer_size = c.write_buffer_size ∧
    (d.OldDefaults 5 1).delayed_write_rate = 2097152 ∧
    (d.OldDefaults 5 2).delayed_write_rate = d.delayed_write_rate := by
  refine ⟨?_, ?_, ?_, ?_, ?_, ?_, ?_, ?_, ?_, ?_, ?_, ?_⟩ <;>
    simp only [DBOptions.OldDefaults, ColumnFamilyOptions.OldDefaults,
      lexLt] <;>
    split_ifs <;>
    first
      | rfl
      | (exfalso; omega)
      | (exfalso; simp only [true_and, false_and, and_true] at *; omega)

/-- C3: after default construction of `AdvancedColumnFamilyOptions` and
`ColumnFamilyOptions`, and after derivation from an `Options` value
whose factories are non-null (the non-null invariant the constructors
assert), `memtable_factory` and `table_factory` are non-null. -/
theorem factories_nonnull (o : Options)
    (hm : o.memtable_factory ≠ none) (ht : o.table_factory ≠ none) :
    AdvancedColumnFamilyOptions.mkDefault.memtable_factory ≠ none ∧
    ColumnFamilyOptions.mkDefault.memtable_factory ≠ none ∧
    ColumnFamilyOptions.mkDefault.table_factory ≠ none ∧
    (AdvancedColumnFamilyOptions.ofOptions o).memtable_factory ≠ none ∧
    (ColumnFamilyOptions.ofOptions o).memtable_factory ≠ none ∧
    (ColumnFamilyOptions.ofOptions o).table_factory ≠ none := by
  refine ⟨by decide, by decide, by decide, ?_, ?_, ?_⟩ <;>
    simp only [AdvancedColumnFamilyOptions.ofOptions,
      ColumnFamilyOptions.ofOptions]
  · split <;> exact hm
  · split <;> exact hm
  · exact ht

/-- Witness for C3 at the default-constructed `Options`. -/
theorem factories_nonnull_witness :
    Options.mkDefault.memtable_factory ≠ none ∧
    Options.mkDefault.table_factory ≠ none ∧
    ((AdvancedColumnFamilyOptions.ofOptions Options.mkDefault).memtable_factory
        ≠ none ∧
      (ColumnFamilyOptions.ofOptions Options.mkDefault).memtable_factory
        ≠ none ∧
      (ColumnFamilyOptions.ofOptions Options.mkDefault).table_factory
        ≠ none) :=
  ⟨by decide, by decide,
    ⟨(factories_nonnull Options.mkDefault (by decide) (by decide)).2.2.2.1,
      (factories_nonnull Options.mkDefault (by decide) (by decide)).2.2.2.2.1,
      (factories_nonnull Options.mkDefault (by decide) (by decide)).2.2.2.2.2⟩⟩

/-- C7 (amended): `OptimizeForPointLookup(C)` installs a no-op prefix
extractor, a block-based table factory with a hash-search index and a
10-bits-per-key bloom filter, a block cache whose capacity is
`C * 1024 * 1024` reduced modulo 2^64 (the product is computed in
`uint64_t` arithmetic, so it wraps for `C ≥ 2^44`), and sets
`memtable_prefix_bloom_size_ratio` to 0.02. -/
theorem optimizeForPointLookup_spec (c : ColumnFamilyOptions)
    (block_cache_size_mb : Nat) :
    (c.OptimizeForPointLookup block_cache_size_mb).prefix_extractor =
      some NewNoopTransform ∧
    tableFactoryIndexType (c.OptimizeForPointLookup block_cache_size_mb) =
      some BlockBasedIndexType.kHashSearch ∧
    tableFactoryBloomBits (c.OptimizeForPointLookup block_cache_size_mb) =
      some 10 ∧
    tableFactoryBlockCacheCapacity
        (c.OptimizeForPointLookup block_cache_size_mb) =
      some (block_cache_size_mb * 1024 * 1024 % 18446744073709551616) ∧
    (c.OptimizeForPointLookup block_cache_size_mb).memtable_prefix_bloom_size_ratio
      = 0.02 :=
  ⟨rfl, rfl, rfl, rfl, rfl⟩

/-- C7 counterexample: at cache size 2^44 MiB the byte count
`C * 1024 * 1024` computed in `uint64_t` arithmetic wraps to 0, so the
installed block cache's capacity does not equal `C * 1024 * 1024`. -/
theorem optimizeForPointLookup_capacity_cex :
    tableFactoryBlockCacheCapacity
        (ColumnFamilyOptions.mkDefault.OptimizeForPointLookup 17592186044416) ≠
      some (17592186044416 * 1024 * 1024) := by decide

/-- C2: deriving `AdvancedColumnFamilyOptions` from an `Options` value
whose `num_levels` is at least 1 (and within the `int` range) leaves
`max_bytes_for_level_multiplier_additional` with length at least
`num_levels`; entries copied from the source array are unchanged, and
every entry appended by the repair equals 1. -/
theorem advanced_ofOptions_repairs_additional (o : Options)
    (h1 : 1 ≤ o.num_levels) (h31 : o.num_levels < 2147483648) :
    o.num_levels.toNat ≤
      (AdvancedColumnFamilyOptions.ofOptions
        o).max_bytes_for_level_multiplier_additional.length ∧
    (∀ i, i < o.max_bytes_for_level_multiplier_additional.length →
      (AdvancedColumnFamilyOptions.ofOptions
          o).max_bytes_for_level_multiplier_additional[i]? =
        o.max_bytes_for_level_multiplier_additional[i]?) ∧
    (∀ i, o.max_bytes_for_level_multiplier_additional.length ≤ i →
      i < (AdvancedColumnFamilyOptions.ofOptions
          o).max_bytes_for_level_multiplier_additional.length →
      (AdvancedColumnFamilyOptions.ofOptions
          o).max_bytes_for_level_multiplier_additional[i]? = some 1) := by
  have h0 : (0 : Int) ≤ o.num_levels := by omega
  have hc32 : uint32OfInt o.num_levels = o.num_levels.toNat :=
    uint32OfInt_eq_toNat h0 (by omega)
  have hc64 : sizeTOfInt o.num_levels = o.num_levels.toNat :=
    sizeTOfInt_eq_toNat h0 (by omega)
  simp only [AdvancedColumnFamilyOptions.ofOptions]
  split
  · rename_i h
    have h2 : o.max_bytes_for_level_multiplier_additional.length <
        uint32OfInt o.num_levels := h
    rw [hc32] at h2
    refine ⟨?_, ?_, ?_⟩
    · show o.num_levels.toNat ≤
        (vecResize o.max_bytes_for_level_multiplier_additional
          (sizeTOfInt o.num_levels) 1).length
      rw [hc64, vecResize_length]
    · intro i hi
      show (vecResize o.max_bytes_for_level_multiplier_additional
          (sizeTOfInt o.num_levels) 1)[i]? =
        o.max_bytes_for_level_multiplier_additional[i]?
      rw [hc64]
      exact vecResize_getElem?_lt _ _ _ _ hi (by omega)
    · intro i hge hlt
      have hlt2 : i < (vecResize o.max_bytes_for_level_multiplier_additional
          (sizeTOfInt o.num_levels) 1).length := hlt
      rw [hc64, vecResize_length] at hlt2
      show (vecResize o.max_bytes_for_level_multiplier_additional
          (sizeTOfInt o.num_levels) 1)[i]? = some 1
      rw [hc64]
      exact vecResize_getElem?_pad _ _ _ _ hge hlt2
  · rename_i h
    have h2 : ¬ (o.max_bytes_for_level_multiplier_additional.length <
        uint32OfInt o.num_levels) := h
    rw [hc32] at h2
    refine ⟨?_, fun i hi => rfl, ?_⟩
    · show o.num_levels.toNat ≤
        o.max_bytes_for_level_multiplier_additional.length
      omega
    · intro i hge hlt
      have hlt2 : i < o.max_bytes_for_level_multiplier_additional.length := hlt
      exact absurd hlt2 (by omega)

/-- A concrete `Options` value whose multiplier-additional array (one
entry) is shorter than its level count (the default 7), exercising the
derivation repair. -/
def shortAdditionalOptions : Options :=
  { Options.mkDefault with max_bytes_for_level_multiplier_additional := [5] }

/-- Witness for C2 at `shortAdditionalOptions`: the derivation pads the
array with 1 up to length 7 and keeps the copied entry. -/
theorem advanced_ofOptions_repairs_additional_witness :
    1 ≤ shortAdditionalOptions.num_levels ∧
    7 ≤ (AdvancedColumnFamilyOptions.ofOptions
        shortAdditionalOptions).max_bytes_for_level_multiplier_additional.length ∧
    (AdvancedColumnFamilyOptions.ofOptions
        shortAdditionalOptions).max_bytes_for_level_multiplier_additional[0]? =
      some 5 ∧
    (AdvancedColumnFamilyOptions.ofOptions
        shortAdditionalOptions).max_bytes_for_level_multiplier_additional[3]? =
      some 1 :=
  ⟨by decide,
    by exact (advanced_ofOptions_repairs_additional shortAdditionalOptions
      (by decide) (by decide)).1,
    by
      have h := (advanced_ofOptions_repairs_additional shortAdditionalOptions
        (by decide) (by decide)).2.1 0 (by decide)
      rw [h]
      decide,
    by exact (advanced_ofOptions_repairs_additional shortAdditionalOptions
      (by decide) (by decide)).2.2 3 (by decide) (by decide)⟩

/-- C4: `OptimizeLevelStyleCompaction(B)` establishes the budget-derived
fields (`write_buffer_size = B/4`, merge threshold 2, buffer count 6,
level-0 trigger 2, `target_file_size_base = B/8`,
`max_bytes_for_level_base = B`, level-style compaction) and, when
`num_levels ≥ 3`, leaves levels 0 and 1 uncompressed and every level
from 2 up snappy-compressed. -/
theorem optimizeLevelStyleCompaction_spec (c : ColumnFamilyOptions)
    (budget : Nat) (h0 : 0 ≤ c.num_levels)
    (h31 : c.num_levels < 2147483648) :
    (c.OptimizeLevelStyleCompaction budget).write_buffer_size = budget / 4 ∧
    (c.OptimizeLevelStyleCompaction budget).min_write_buffer_number_to_merge
      = 2 ∧
    (c.OptimizeLevelStyleCompaction budget).max_write_buffer_number = 6 ∧
    (c.OptimizeLevelStyleCompaction budget).level0_file_num_compaction_trigger
      = 2 ∧
    (c.OptimizeLevelStyleCompaction budget).target_file_size_base
      = budget / 8 ∧
    (c.OptimizeLevelStyleCompaction budget).max_bytes_for_level_base
      = budget ∧
    (c.OptimizeLevelStyleCompaction budget).compaction_style =
      kCompactionStyleLevel ∧
    (3 ≤ c.num_levels →
      (c.OptimizeLevelStyleCompaction budget).compression_per_level.getD 0
        kSnappyCompression = kNoCompression ∧
      (c.OptimizeLevelStyleCompaction budget).compression_per_level.getD 1
        kSnappyCompression = kNoCompression ∧
      (∀ i, 2 ≤ i →
        i < (c.OptimizeLevelStyleCompaction budget).compression_per_level.length →
        (c.OptimizeLevelStyleCompaction budget).compression_per_level.getD i
          kNoCompression = kSnappyCompression)) := by
  have hs : sizeTOfInt c.num_levels = c.num_levels.toNat :=
    sizeTOfInt_eq_toNat h0 (by omega)
  have hbase : (vecResize c.compression_per_level (sizeTOfInt c.num_levels)
      kNoCompression).length = c.num_levels.toNat := by
    rw [hs, vecResize_length]
  have hfield : (c.OptimizeLevelStyleCompaction budget).compression_per_level =
      compressionFill
        (vecResize c.compression_per_level (sizeTOfInt c.num_levels)
          kNoCompression) c.num_levels.toNat := rfl
  refine ⟨rfl, rfl, rfl, rfl, rfl, rfl, rfl, ?_⟩
  intro h3
  have hn3 : 3 ≤ c.num_levels.toNat := by omega
  refine ⟨?_, ?_, ?_⟩
  · rw [hfield, List.getD_eq_getElem?_getD,
      compressionFill_getElem? _ _ 0 (by omega) (by rw [hbase]; omega)]
    rfl
  · rw [hfield, List.getD_eq_getElem?_getD,
      compressionFill_getElem? _ _ 1 (by omega) (by rw [hbase]; omega)]
    rfl
  · intro i h2 hlen
    rw [hfield, compressionFill_length, hbase] at hlen
    rw [hfield, List.getD_eq_getElem?_getD,
      compressionFill_getElem? _ _ i (by omega) (by rw [hbase]; omega)]
    have hni : ¬ i < 2 := by omega
    rw [if_neg hni]
    rfl

/-- Witness for C4 at the default column-family options (seven levels)
with a budget of 1024 bytes. -/
theorem optimizeLevelStyleCompaction_spec_witness :
    (0 : Int) ≤ ColumnFamilyOptions.mkDefault.num_levels ∧
    3 ≤ ColumnFamilyOptions.mkDefault.num_levels ∧
    (ColumnFamilyOptions.mkDefault.OptimizeLevelStyleCompaction
        1024).write_buffer_size = 1024 / 4 ∧
    (ColumnFamilyOptions.mkDefault.OptimizeLevelStyleCompaction
        1024).compression_per_level.getD 0 kSnappyCompression =
      kNoCompression ∧
    (ColumnFamilyOptions.mkDefault.OptimizeLevelStyleCompaction
        1024).compression_per_level.getD 2 kNoCompression =
      kSnappyCompression :=
  ⟨by decide, by decide,
    (optimizeLevelStyleCompaction_spec ColumnFamilyOptions.mkDefault 1024
      (by decide) (by decide)).1,
    ((optimizeLevelStyleCompaction_spec ColumnFamilyOptions.mkDefault 1024
      (by decide) (by decide)).2.2.2.2.2.2.2 (by decide)).1,
    ((optimizeLevelStyleCompaction_spec ColumnFamilyOptions.mkDefault 1024
      (by decide) (by decide)).2.2.2.2.2.2.2 (by decide)).2.2 2 (by decide)
      (by decide)⟩

/-- C10: after `OptimizeLevelStyleCompaction` the per-level compression
array has exactly `num_levels` entries (so a caller-supplied array
longer than `num_levels` is truncated, not preserved), and when
`num_levels ≤ 2` every entry is the uncompressed value, hence no level
is compressed. -/
theorem optimizeLevelStyleCompaction_exact_length (c : ColumnFamilyOptions)
    (budget : Nat) (h0 : 0 ≤ c.num_levels)
    (h31 : c.num_levels < 2147483648) :
    (c.OptimizeLevelStyleCompaction budget).compression_per_level.length =
      c.num_levels.toNat ∧
    (c.num_levels ≤ 2 → ∀ i,
      i < (c.OptimizeLevelStyleCompaction budget).compression_per_level.length →
      (c.OptimizeLevelStyleCompaction budget).compression_per_level.getD i
        kSnappyCompression = kNoCompression) := by
  have hs : sizeTOfInt c.num_levels = c.num_levels.toNat :=
    sizeTOfInt_eq_toNat h0 (by omega)
  have hbase : (vecResize c.compression_per_level (sizeTOfInt c.num_levels)
      kNoCompression).length = c.num_levels.toNat := by
    rw [hs, vecResize_length]
  have hfield : (c.OptimizeLevelStyleCompaction budget).compression_per_level =
      compressionFill
        (vecResize c.compression_per_level (sizeTOfInt c.num_levels)
          kNoCompression) c.num_levels.toNat := rfl
  have hlen : (c.OptimizeLevelStyleCompaction budget).compression_per_level.length
      = c.num_levels.toNat := by
    rw [hfield, compressionFill_length, hbase]
  refine ⟨hlen, ?_⟩
  intro hle i hi
  rw [hlen] at hi
  have hi2 : i < 2 := by omega
  rw [hfield, List.getD_eq_getElem?_getD,
    compressionFill_getElem? _ _ i (by omega) (by rw [hbase]; omega)]
  rw [if_pos hi2]
  rfl

/-- A concrete two-level configuration whose compression array starts
with five snappy entries, exercising the truncating resize. -/
def twoLevelLongCompression : ColumnFamilyOptions :=
  { ColumnFamilyOptions.mkDefault with
    num_levels := 2
    compression_per_level :=
      [kSnappyCompression, kSnappyCompression, kSnappyCompression,
        kSnappyCompression, kSnappyCompression] }

/-- Witness for C10 at `twoLevelLongCompression` with a budget of 7
bytes: the transformer truncates the five-entry array to exactly two
uncompressed entries. -/
theorem optimizeLevelStyleCompaction_exact_length_witness :
    (0 : Int) ≤ twoLevelLongCompression.num_levels ∧
    (twoLevelLongCompression.OptimizeLevelStyleCompaction
      7).compression_per_level.length = 2 ∧
    (twoLevelLongCompression.OptimizeLevelStyleCompaction
      7).compression_per_level.getD 0 kSnappyCompression = kNoCompression :=
  ⟨by decide,
    by exact (optimizeLevelStyleCompaction_exact_length
      twoLevelLongCompression 7 (by decide) (by decide)).1,
    by exact ((optimizeLevelStyleCompaction_exact_length
      twoLevelLongCompression 7 (by decide) (by decide)).2 (by decide) 0 (by decide))⟩

/-- C1 (amended): splitting an `Options` value into its `DBOptions` and
`ColumnFamilyOptions` parts and reassembling preserves every field
except two: the deprecated `rate_limit_delay_max_milliseconds`, which
the column-family derivation does not copy (it resets to its catalog
default), and `max_bytes_for_level_multiplier_additional`, which the
derivation pads with 1 when shorter than `num_levels`.  In particular
the round trip is the identity exactly on values where those two fields
are already at rest. -/
theorem options_split_reassemble (o : Options) :
    o.roundTrip =
      { o with
        rate_limit_delay_max_milliseconds := 1000
        max_bytes_for_level_multiplier_additional :=
          (if o.max_bytes_for_level_multiplier_additional.length <
              uint32OfInt o.num_levels then
            vecResize o.max_bytes_for_level_multiplier_additional
              (sizeTOfInt o.num_levels) 1
          else o.max_bytes_for_level_multiplier_additional) } := by
  simp only [Options.roundTrip, Options.assemble, DBOptions.ofOptions,
    ColumnFamilyOptions.ofOptions, AdvancedColumnFamilyOptions.ofOptions]
  split <;> rfl

/-- C1 counterexample: an `Options` value whose deprecated
`rate_limit_delay_max_milliseconds` is not at its default is changed by
the split-and-reassemble round trip, so the round trip is not
field-equality-preserving for every value. -/
theorem options_split_reassemble_cex :
    ({ Options.mkDefault with rate_limit_delay_max_milliseconds := 999 } :
        Options).roundTrip ≠
      { Options.mkDefault with rate_limit_delay_max_milliseconds := 999 } :=
  fun h =>
    absurd
      (congrArg (fun x : Options => x.rate_limit_delay_max_milliseconds) h)
      (by decide)

/-- C8: the diagnostic dump is a total function of the configuration
(so it completes on every input); a null merge operator, compaction
filter or compaction filter factory is rendered with the literal
`"None"`, and a compaction style or priority with no entry in the name
table is rendered as an `"unknown_"`-labelled string rather than
failing. -/
theorem dump_degenerate_values (c : ColumnFamilyOptions)
    (hmo : c.merge_operator = none)
    (hcf : c.compaction_filter = none)
    (hcff : c.compaction_filter_factory = none)
    (hst : compaction_style_to_string c.compaction_style = none)
    (hpr : compaction_pri_to_string c.compaction_pri = none) :
    "          Options.merge_operator: None" ∈ c.Dump ∧
    "       Options.compaction_filter: None" ∈ c.Dump ∧
    "       Options.compaction_filter_factory: None" ∈ c.Dump ∧
    ("                        Options.compaction_style: " ++
      ("unknown_" ++ toString c.compaction_style)) ∈ c.Dump ∧
    ("                          Options.compaction_pri: " ++
      ("unknown_" ++ toString c.compaction_pri)) ∈ c.Dump := by
  unfold ColumnFamilyOptions.Dump
  rw [hmo, hcf, hcff, hst, hpr]
  refine ⟨?_, ?_, ?_, ?_, ?_⟩
  · exact List.mem_append_left _ (List.mem_append_left _
      (List.mem_append_left _ (List.mem_append_left _
        (List.Mem.tail _ (List.Mem.head _)))))
  · exact List.mem_append_left _ (List.mem_append_left _
      (List.mem_append_left _ (List.mem_append_left _
        (List.Mem.tail _ (List.Mem.tail _ (List.Mem.head _))))))
  · exact List.mem_append_left _ (List.mem_append_left _
      (List.mem_append_left _ (List.mem_append_left _
        (List.Mem.tail _ (List.Mem.tail _ (List.Mem.tail _
          (List.Mem.head _)))))))
  · exact List.mem_append_right _
      (List.Mem.tail _ (List.Mem.tail _ (List.Mem.tail _ (List.Mem.tail _
        (List.Mem.tail _ (List.Mem.tail _ (List.Mem.tail _
          (List.Mem.head _))))))))
  · exact List.mem_append_right _
      (List.Mem.tail _ (List.Mem.tail _ (List.Mem.tail _ (List.Mem.tail _
        (List.Mem.tail _ (List.Mem.tail _ (List.Mem.tail _ (List.Mem.tail _
          (List.Mem.head _)))))))))

/-- A concrete configuration with a null merge operator, compaction
filter and filter factory, and with compaction style and priority
values that have no entry in the name tables. -/
def degenerateDumpConfig : ColumnFamilyOptions :=
  { ColumnFamilyOptions.mkDefault with
    merge_operator := none
    compaction_filter := none
    compaction_filter_factory := none
    compaction_style := 100
    compaction_pri := 100 }

/-- Witness for C8 at `degenerateDumpConfig`. -/
theorem dump_degenerate_values_witness :
    degenerateDumpConfig.compaction_filter = none ∧
    compaction_style_to_string degenerateDumpConfig.compaction_style = none ∧
    ("          Options.merge_operator: None" ∈ degenerateDumpConfig.Dump ∧
      "       Options.compaction_filter: None" ∈ degenerateDumpConfig.Dump ∧
      ("                        Options.compaction_style: " ++
        ("unknown_" ++ toString degenerateDumpConfig.compaction_style)) ∈
        degenerateDumpConfig.Dump) :=
  ⟨rfl, by decide,
    (dump_degenerate_values degenerateDumpConfig rfl rfl rfl (by decide)
      (by decide)).1,
    (dump_degenerate_values degenerateDumpConfig rfl rfl rfl (by decide)
      (by decide)).2.1,
    (dump_degenerate_values degenerateDumpConfig rfl rfl rfl (by decide)
      (by decide)).2.2.2.1⟩

end rocksdb
